import Mathlib

/-!
Verification of the idea-hub-poc validation pipeline against its
specification.  The development shallowly embeds:

* the Trends Provider HTTP handler (`GET /api/trends`) from
  `src/mcp-server/example.js` (the express server that forwards to the
  SerpApi backend),
* the Presentation Client's submit handler from
  `src/saas-frontend/src/app/page.tsx`,
* the results view's hand-off effects and recommendation styling from
  `src/saas-frontend/src/app/result/page.tsx`,
* spec-modelled definitions for the components of this repository whose
  implementation files are not present in the source tree (the faker-based
  mock trends generator and the Python orchestrator behind
  `POST /validate/batch`), each marked `Modelled from the spec:`.
-/

/-- Semantics of the JavaScript builtin `String.prototype.trim()` used by
both the frontend (`idea.trim()`) and the trends server (`k.trim()`):
drop whitespace from both ends of the string. -/
def jsTrim (s : String) : String :=
  String.mk (((s.data.dropWhile Char.isWhitespace).reverse.dropWhile Char.isWhitespace).reverse)

/-- Recursion core of the JavaScript builtin `String.prototype.split(',')`:
split a character list at every comma; the empty input yields one empty
segment, as in JavaScript. -/
def splitCommaAux : List Char → List String
  | [] => [""]
  | a :: t =>
      match splitCommaAux t with
      | [] => [""]
      | hd :: tl =>
          if a = ',' then "" :: hd :: tl else String.mk (a :: hd.data) :: tl

/-- Semantics of the JavaScript builtin `keywords.split(',')` used by the
`/api/trends` handler. -/
def jsSplitComma (s : String) : List String :=
  splitCommaAux s.data

/-- Embedding of
`keywords.split(',').map(k => k.trim()).filter(k => k.length > 0).join(',')`
from the `/api/trends` handler in `src/mcp-server/example.js`. -/
def normalizeKeywords (keywords : String) : String :=
  String.intercalate ","
    (((jsSplitComma keywords).map jsTrim).filter (fun k => k.length > 0))

/-- The query object the handler passes to the SerpApi client
(`getJson({ engine: "google_trends", q, data_type: "TIMESERIES", api_key })`).
The structure mirrors the fields built in the source; note it carries no
date field (the handler never forwards one). The api key is deployment
configuration and not modelled. -/
structure SerpQuery where
  engine : String
  q : String
  data_type : String
deriving DecidableEq, Repr

/-- The JSON document the SerpApi backend hands to the callback: the
handler only inspects `json.error`; the rest of the document is opaque to
it and is represented here by `body`. -/
structure SerpJson where
  error : Option String
  body : String
deriving DecidableEq, Repr

/-- Responses of the `/api/trends` handler: 400 with an error string,
500 with an error string, or 200 with the upstream JSON. -/
inductive TrendsResponse where
  | badRequest (error : String)
  | serverError (error : String)
  | ok (json : SerpJson)
deriving DecidableEq, Repr

/-- Embedding of `const { keywords, date = 'today 12-m' } = req.query`:
the destructuring default for the `date` query parameter.  In the source
the resulting variable is never used again: it is not forwarded to the
SerpApi call and does not reach the response. -/
def resolvedDateRange (date : Option String) : String :=
  date.getD "today 12-m"

/-- Embedding of the `GET /api/trends` handler of
`src/mcp-server/example.js`, parameterised by the SerpApi backend
(`getJson`) as `upstream`.  `keywords = none` models an absent query
parameter; `some ""` an empty one (both are falsy under `!keywords`). -/
def trendsHandler (upstream : SerpQuery → SerpJson)
    (keywords : Option String) (date : Option String) : TrendsResponse :=
  let _ := resolvedDateRange date
  match keywords with
  | none =>
      .badRequest "Keywords parameter is required. Use comma-separated values like: ?keywords=coffee,milk,bread"
  | some kw =>
      if kw = "" then
        .badRequest "Keywords parameter is required. Use comma-separated values like: ?keywords=coffee,milk,bread"
      else
        let q := normalizeKeywords kw
        if q = "" then
          .badRequest "At least one valid keyword is required"
        else
          let json := upstream { engine := "google_trends", q := q, data_type := "TIMESERIES" }
          match json.error with
          | some e => .serverError e
          | none => .ok json

/-- Embedding of `handleSubmit` from `src/saas-frontend/src/app/page.tsx`:
`if (!idea.trim()) return;` aborts before any request, otherwise a
`POST /validate` request is sent with body `{query: idea}`.  `some q`
is a request whose `query` field is `q`; `none` means no request is sent. -/
def handleSubmit (idea : String) : Option String :=
  if jsTrim idea = "" then none else some idea

/-- State of the results page of
`src/saas-frontend/src/app/result/page.tsx`: the session-storage cell
under the `validationResult` key, the `result`, `error`, `loading` React
states, and the `hasProcessed` ref.  The parsed result value is opaque to
the effects, hence the type parameter. -/
structure PageState (R : Type) where
  storage : Option String
  result : Option R
  error : Option String
  loading : Bool
  hasProcessed : Bool
deriving DecidableEq, Repr

/-- The state the results page mounts with: `result = null`,
`error = null`, `loading = true`, `hasProcessed.current = false`, and
whatever the session storage holds. -/
def initialState (R : Type) (storage : Option String) : PageState R :=
  { storage := storage, result := none, error := none, loading := true, hasProcessed := false }

/-- Embedding of the first `useEffect` of the results page: early-return
when `hasProcessed.current`; otherwise read the storage, parse it
(`parse raw = none` models `JSON.parse` throwing, which the `catch`
handles), and set the corresponding states; `setLoading(false)` runs in
every non-early-return path. -/
def loadResultEffect {R : Type} (parse : String → Option R) (s : PageState R) : PageState R :=
  if s.hasProcessed then s
  else
    match s.storage with
    | some raw =>
        match parse raw with
        | some r =>
            { s with result := some r, hasProcessed := true, loading := false }
        | none =>
            { s with error := some "Invalid result data format. Please start a new analysis.",
                     hasProcessed := true, loading := false }
    | none =>
        { s with error := some "No result data found. Please start a new analysis.",
                 hasProcessed := true, loading := false }

/-- Embedding of the second `useEffect` of the results page (comment in
the source: clear session storage after successful processing): if
`result` is set and `hasProcessed.current` is still false, remove the
stored item and set the flag. -/
def clearStorageEffect {R : Type} (s : PageState R) : PageState R :=
  if s.result.isSome && !s.hasProcessed then
    { s with storage := none, hasProcessed := true }
  else s

/-- One invocation of the page's setup logic: the load effect runs, and
the clear effect observes the state it produced (the clear effect's
dependency array re-runs it once `result` has committed). -/
def runPageEffects {R : Type} (parse : String → Option R) (s : PageState R) : PageState R :=
  clearStorageEffect (loadResultEffect parse s)

/-- Mounting the results page over a given session-storage content. -/
def mountResultPage {R : Type} (parse : String → Option R) (storage : Option String) : PageState R :=
  runPageEffects parse (initialState R storage)

/-- Style returned for `BUILD` by `getRecommendationColor`. -/
def buildStyle : String :=
  "text-green-600 bg-green-100 dark:bg-green-900/30 border-green-200 dark:border-green-700"

/-- Style returned for `VALIDATE` by `getRecommendationColor`. -/
def validateStyle : String :=
  "text-yellow-600 bg-yellow-100 dark:bg-yellow-900/30 border-yellow-200 dark:border-yellow-700"

/-- Style returned for `PIVOT` by `getRecommendationColor`. -/
def pivotStyle : String :=
  "text-red-600 bg-red-100 dark:bg-red-900/30 border-red-200 dark:border-red-700"

/-- Neutral default style returned by `getRecommendationColor` for any
unrecognized recommendation value. -/
def defaultStyle : String :=
  "text-slate-600 bg-slate-100 dark:bg-slate-900/30 border-slate-200 dark:border-slate-700"

/-- Embedding of `getRecommendationColor` from
`src/saas-frontend/src/app/result/page.tsx` (a `switch` on the
recommendation string with a `default` branch). -/
def getRecommendationColor (recommendation : String) : String :=
  if recommendation = "BUILD" then buildStyle
  else if recommendation = "VALIDATE" then validateStyle
  else if recommendation = "PIVOT" then pivotStyle
  else defaultStyle

/-- One entry of a timeline point's `values` array (response format
documented in `src/mcp-server`'s README): the keyword and its interest
value for that week. -/
structure TrendValue where
  query : String
  extracted_value : Nat
deriving DecidableEq, Repr

/-- One weekly timeline point; `date` is the week index, standing in for
the synthesized date label. -/
structure TimelinePoint where
  date : Nat
  values : List TrendValue
deriving DecidableEq, Repr

/-- One per-keyword average entry of the `averages` array. -/
structure TrendAverage where
  query : String
  value : Nat
deriving DecidableEq, Repr

/-- The `interest_over_time` object of a trends response. -/
structure InterestOverTime where
  timeline_data : List TimelinePoint
  averages : List TrendAverage
deriving DecidableEq, Repr

/-- Modelled from the spec: one synthetic interest value drawn from the
generator's internal random source `rng` (week `w`, keyword position `i`),
reduced into the documented `[0, 100]` range. -/
def mockValue (rng : Nat → Nat → Nat) (w i : Nat) : Nat :=
  rng w i % 101

/-- Modelled from the spec: the faker-based mock trends generator (the
`server.js` of `src/mcp-server` described by its README, example and test
scripts) is not present under `src/`; only the SerpApi pass-through server
is.  Per spec section 4.1 and the README: 52 synthetic weekly points, each
carrying one value per requested keyword in `[0, 100]`, and one average
per keyword computed over the same range. -/
def mockGetTrends (rng : Nat → Nat → Nat) (keywords : List String) : InterestOverTime :=
  { timeline_data := (List.range 52).map fun w =>
      { date := w,
        values := keywords.enum.map fun ik =>
          { query := ik.2, extracted_value := mockValue rng w ik.1 } },
    averages := keywords.enum.map fun ik =>
      { query := ik.2,
        value := ((List.range 52).map fun w => mockValue rng w ik.1).sum / 52 } }

/-- Well-formedness of a trend series for a requested keyword list:
exactly 52 timeline points, each carrying exactly one value per requested
keyword (in order) with values in `[0, 100]`, and exactly one average
entry per keyword (in order) with values in `[0, 100]`. -/
def trendSeriesWellFormed (keywords : List String) (t : InterestOverTime) : Prop :=
  t.timeline_data.length = 52 ∧
  (∀ p ∈ t.timeline_data,
    p.values.map TrendValue.query = keywords ∧
    ∀ v ∈ p.values, v.extracted_value ≤ 100) ∧
  t.averages.map TrendAverage.query = keywords ∧
  ∀ a ∈ t.averages, a.value ≤ 100

/-- The `ValidationResponse` record declared in
`src/mcp-server/test_server.js` (fields beyond those used by the batch
aggregation are not needed here). -/
structure ValidationResponse where
  success : Bool
  query : String
  recommendations : List String
deriving DecidableEq, Repr

/-- The `BatchValidationResponse` record declared in
`src/mcp-server/test_server.js`. -/
structure BatchValidationResponse where
  success : Bool
  results : List ValidationResponse
  total_queries : Nat
  successful_queries : Nat
  failed_queries : Nat
deriving DecidableEq, Repr

/-- Modelled from the spec: the Orchestrator implementation behind
`POST /validate/batch` (the Python agent `nestjs_integration.py`) is not
under `src/`; only its TypeScript client declarations and documentation
are.  Per spec section 4.2, the batch variant applies the per-item
validator to each input independently (a failure of one item cannot abort
its siblings, which is captured by quantifying over an arbitrary per-item
outcome function) and aggregates success/failure counts. -/
def validateBatch (validateOne : String → ValidationResponse)
    (queries : List String) : BatchValidationResponse :=
  let results := queries.map validateOne
  { success := true,
    results := results,
    total_queries := queries.length,
    successful_queries := (results.filter fun r => r.success).length,
    failed_queries := (results.filter fun r => !r.success).length }

/-- Concrete SerpApi backend that reports a failure, used to instantiate
the upstream-error theorems. -/
def failingUpstream : SerpQuery → SerpJson :=
  fun _ => { error := some "SerpApi quota exceeded", body := "" }

/-- Concrete stand-in for `JSON.parse` that succeeds exactly on the
string "ok", used to evaluate the hand-off effects at a successful read. -/
def parseOnlyOk : String → Option Nat :=
  fun s => if s = "ok" then some 1 else none

/-- Concrete stand-in for `JSON.parse` that throws on every input, used
to evaluate the hand-off effects at a malformed stored string. -/
def parseAlwaysFails : String → Option Nat :=
  fun _ => none

/-- Concrete pseudo-random source used to instantiate the mock trends
generator. -/
def sampleRng : Nat → Nat → Nat :=
  fun w i => 37 * w + 53 * i + 11

/-- Dropping the elements satisfying `p` from a list all of whose
elements satisfy `p` leaves nothing. -/
theorem dropWhile_eq_nil_of_all {α : Type} (p : α → Bool) (l : List α)
    (h : ∀ a ∈ l, p a) : l.dropWhile p = [] := by
  induction l with
  | nil => rfl
  | cons a t ih =>
      simp only [List.dropWhile_cons, h a (List.mem_cons_self a t), if_true]
      exact ih fun b hb => h b (List.mem_cons_of_mem a hb)

/-- A string all of whose characters are whitespace trims to the empty
string. -/
theorem jsTrim_eq_empty {s : String} (h : ∀ c ∈ s.data, c.isWhitespace) :
    jsTrim s = "" := by
  unfold jsTrim
  rw [dropWhile_eq_nil_of_all _ _ h]
  rfl

/-- Lengths of the two halves of a filter partition add up to the length
of the list. -/
theorem length_filter_add_length_filter_not {α : Type} (p : α → Bool) (l : List α) :
    (l.filter p).length + (l.filter fun a => !p a).length = l.length := by
  induction l with
  | nil => rfl
  | cons a t ih =>
      cases h : p a <;> simp [List.filter_cons, h] <;> omega

/-- The results page's load effect always leaves the `hasProcessed` flag
set after a mount. -/
theorem mount_hasProcessed {R : Type} (parse : String → Option R) (storage : Option String) :
    (mountResultPage parse storage).hasProcessed = true := by
  unfold mountResultPage runPageEffects initialState loadResultEffect clearStorageEffect
  cases storage with
  | none => simp
  | some raw => cases h : parse raw <;> simp [h]

/-- Once the `hasProcessed` flag is set, re-running both effects changes
nothing: the load effect early-returns and the clear effect's guard is
false. -/
theorem runPageEffects_processed {R : Type} (parse : String → Option R) (s : PageState R)
    (h : s.hasProcessed = true) : runPageEffects parse s = s := by
  unfold runPageEffects loadResultEffect clearStorageEffect
  simp [h]

/-- C1: the claim states that the hand-off storage is cleared immediately
after the first successful read, so that a refresh reaches the explicit
no-data error state.  Evaluating the embedded effects at a stored value
that parses successfully shows the opposite: the load effect sets the
`hasProcessed` ref before `result` commits, so the clearing effect's
guard is never true, `removeItem` never runs, the storage still holds the
value after the first read, and a second mount (page refresh) re-displays
the stale result with no error. -/
theorem c1_handoff_storage_never_cleared :
    (mountResultPage parseOnlyOk (some "ok")).result = some 1 ∧
    (mountResultPage parseOnlyOk (some "ok")).storage = some "ok" ∧
    (mountResultPage parseOnlyOk ((mountResultPage parseOnlyOk (some "ok")).storage)).result = some 1 ∧
    (mountResultPage parseOnlyOk ((mountResultPage parseOnlyOk (some "ok")).storage)).error = none :=
  ⟨rfl, rfl, rfl, rfl⟩

/-- C2: a missing `keywords` parameter, and any `keywords` string whose
comma-separated segments all trim to the empty string, make the
`/api/trends` handler answer a 400 response carrying a non-empty error
string; no trend series is returned. -/
theorem c2_blank_keywords_rejected (upstream : SerpQuery → SerpJson) (d : Option String) :
    trendsHandler upstream none d =
      .badRequest "Keywords parameter is required. Use comma-separated values like: ?keywords=coffee,milk,bread" ∧
    ∀ kw : String, (∀ seg ∈ jsSplitComma kw, jsTrim seg = "") →
      ∃ e, e ≠ "" ∧ trendsHandler upstream (some kw) d = .badRequest e := by
  refine ⟨rfl, ?_⟩
  intro kw h
  by_cases hkw : kw = ""
  · subst hkw
    exact ⟨_, by decide, rfl⟩
  · have hfilter : ((jsSplitComma kw).map jsTrim).filter (fun k => k.length > 0) = [] := by
      rw [List.filter_eq_nil_iff]
      intro a ha
      obtain ⟨seg, hseg, rfl⟩ := List.mem_map.mp ha
      rw [h seg hseg]
      decide
    have hq : normalizeKeywords kw = "" := by
      rw [normalizeKeywords, hfilter]
      rfl
    refine ⟨"At least one valid keyword is required", by decide, ?_⟩
    simp [trendsHandler, hkw, hq]

/-- Check of C2 at concrete inputs: an absent parameter and the
whitespace-only keywords string " , " are both rejected with a 400. -/
theorem c2_blank_keywords_rejected_check :
    trendsHandler failingUpstream none none =
      .badRequest "Keywords parameter is required. Use comma-separated values like: ?keywords=coffee,milk,bread" ∧
    ∃ e, e ≠ "" ∧ trendsHandler failingUpstream (some " , ") none = .badRequest e :=
  ⟨(c2_blank_keywords_rejected failingUpstream none).1,
   (c2_blank_keywords_rejected failingUpstream none).2 " , " (by decide)⟩

/-- C3: for every non-empty keyword list, the (spec-modelled) mock trends
generator produces exactly 52 weekly timeline points, each carrying one
value in `[0, 100]` per requested keyword in request order, and exactly
one average entry per keyword in the same range. -/
theorem c3_mock_trends_shape (rng : Nat → Nat → Nat) (keywords : List String)
    (_h : keywords ≠ []) :
    trendSeriesWellFormed keywords (mockGetTrends rng keywords) := by
  refine ⟨by simp [mockGetTrends], ?_, ?_, ?_⟩
  · intro p hp
    simp only [mockGetTrends, List.mem_map, List.mem_range] at hp
    obtain ⟨w, _, rfl⟩ := hp
    constructor
    · simp [List.map_map, Function.comp_def, List.enum_map_snd]
    · intro v hv
      simp only [List.mem_map] at hv
      obtain ⟨ik, _, rfl⟩ := hv
      exact Nat.lt_succ_iff.mp (Nat.mod_lt _ (by norm_num))
  · simp [mockGetTrends, List.map_map, Function.comp_def, List.enum_map_snd]
  · intro a ha
    simp only [mockGetTrends, List.mem_map] at ha
    obtain ⟨ik, _, rfl⟩ := ha
    have hsum : ((List.range 52).map fun w => mockValue rng w ik.1).sum ≤ 52 * 100 := by
      have hb := List.sum_le_card_nsmul
        ((List.range 52).map fun w => mockValue rng w ik.1) 100 ?_
      · simpa [Nat.mul_comm] using hb
      · intro x hx
        obtain ⟨w, _, rfl⟩ := List.mem_map.mp hx
        exact Nat.lt_succ_iff.mp (Nat.mod_lt _ (by norm_num))
    calc ((List.range 52).map fun w => mockValue rng w ik.1).sum / 52
        ≤ 52 * 100 / 52 := Nat.div_le_div_right hsum
      _ = 100 := by norm_num

/-- Check of C3 at the spec's scenario: the five keywords parsed from
"coffee,milk,bread,pasta,steak" yield a well-formed series (52 points,
5 averages). -/
theorem c3_mock_trends_shape_check :
    (["coffee", "milk", "bread", "pasta", "steak"] : List String) ≠ [] ∧
    trendSeriesWellFormed ["coffee", "milk", "bread", "pasta", "steak"]
      (mockGetTrends sampleRng ["coffee", "milk", "bread", "pasta", "steak"]) :=
  ⟨by decide, c3_mock_trends_shape sampleRng _ (by decide)⟩

/-- C4: for every per-item validator and every ordered input sequence,
the (spec-modelled) batch validation returns exactly one result per input
and its counts satisfy
`successful_queries + failed_queries = total_queries = N`. -/
theorem c4_batch_counts (validateOne : String → ValidationResponse) (queries : List String) :
    (validateBatch validateOne queries).results.length = queries.length ∧
    (validateBatch validateOne queries).successful_queries
        + (validateBatch validateOne queries).failed_queries
      = (validateBatch validateOne queries).total_queries ∧
    (validateBatch validateOne queries).total_queries = queries.length := by
  refine ⟨by simp [validateBatch], ?_, rfl⟩
  simp only [validateBatch]
  rw [length_filter_add_length_filter_not]
  simp

/-- C5: the handler's destructuring gives the `date` parameter the
default token "today 12-m" when it is omitted, but the source never uses
the variable again: the SerpApi query it builds has no date field, and
the handler's response is independent of the supplied date token, so the
token is not passed through into the response metadata. -/
theorem c5_date_token_ignored :
    resolvedDateRange none = "today 12-m" ∧
    ∀ (upstream : SerpQuery → SerpJson) (keywords d1 d2 : Option String),
      trendsHandler upstream keywords d1 = trendsHandler upstream keywords d2 :=
  ⟨rfl, fun _ _ _ _ => rfl⟩

/-- C6: for every non-empty normalized keywords string, when the SerpApi
backend reports an error the handler answers a 500 response carrying the
upstream's own error message, and when it reports none the handler
returns the upstream document verbatim — never substituted data. -/
theorem c6_upstream_error_surfaced (upstream : SerpQuery → SerpJson)
    (kw : String) (d : Option String)
    (h1 : kw ≠ "") (h2 : normalizeKeywords kw ≠ "") :
    (∀ e, (upstream { engine := "google_trends", q := normalizeKeywords kw, data_type := "TIMESERIES" }).error = some e →
        trendsHandler upstream (some kw) d = .serverError e) ∧
    ((upstream { engine := "google_trends", q := normalizeKeywords kw, data_type := "TIMESERIES" }).error = none →
        trendsHandler upstream (some kw) d
          = .ok (upstream { engine := "google_trends", q := normalizeKeywords kw, data_type := "TIMESERIES" })) := by
  constructor
  · intro e he
    simp [trendsHandler, h1, h2, he]
  · intro he
    simp [trendsHandler, h1, h2, he]

/-- Check of C6 at a concrete failing backend: the upstream's message
"SerpApi quota exceeded" is surfaced in a 500 response. -/
theorem c6_upstream_error_surfaced_check :
    ("ai" : String) ≠ "" ∧ normalizeKeywords "ai" ≠ "" ∧
    trendsHandler failingUpstream (some "ai") none = .serverError "SerpApi quota exceeded" :=
  ⟨by decide, by decide,
   (c6_upstream_error_surfaced failingUpstream "ai" none (by decide) (by decide)).1
     "SerpApi quota exceeded" rfl⟩

/-- C7: for every idea string that is empty or consists only of
whitespace characters, the submit handler returns before any request is
built, so no `POST /validate` request is sent. -/
theorem c7_blank_idea_not_submitted (idea : String)
    (h : ∀ c ∈ idea.data, c.isWhitespace) :
    handleSubmit idea = none := by
  simp [handleSubmit, jsTrim_eq_empty h]

/-- Check of C7 at a whitespace-only idea. -/
theorem c7_blank_idea_not_submitted_check :
    (∀ c ∈ ("   " : String).data, c.isWhitespace) ∧ handleSubmit "   " = none :=
  ⟨by decide, c7_blank_idea_not_submitted "   " (by decide)⟩

/-- C8: the hand-off consumption is idempotent per navigation: after the
first run of the setup logic the `hasProcessed` flag is set, so re-running
both effects leaves the page state (result, error, loading and the
storage) unchanged — nothing is re-read or re-applied. -/
theorem c8_setup_rerun_noop {R : Type} (parse : String → Option R) (storage : Option String) :
    runPageEffects parse (mountResultPage parse storage) = mountResultPage parse storage :=
  runPageEffects_processed parse _ (mount_hasProcessed parse storage)

/-- C9: the results view handles the `recommendation` field as the closed
enumeration BUILD / VALIDATE / PIVOT, mapping each member to its fixed
style and every other string to the explicit neutral default style — no
value is handled as an arbitrary free string. -/
theorem c9_recommendation_closed_enum (r : String) :
    (r = "BUILD" ∧ getRecommendationColor r = buildStyle) ∨
    (r = "VALIDATE" ∧ getRecommendationColor r = validateStyle) ∨
    (r = "PIVOT" ∧ getRecommendationColor r = pivotStyle) ∨
    (r ≠ "BUILD" ∧ r ≠ "VALIDATE" ∧ r ≠ "PIVOT" ∧ getRecommendationColor r = defaultStyle) := by
  by_cases h1 : r = "BUILD"
  · exact Or.inl ⟨h1, by simp [getRecommendationColor, h1]⟩
  by_cases h2 : r = "VALIDATE"
  · exact Or.inr (Or.inl ⟨h2, by simp [getRecommendationColor, h1, h2]⟩)
  by_cases h3 : r = "PIVOT"
  · exact Or.inr (Or.inr (Or.inl ⟨h3, by simp [getRecommendationColor, h1, h2, h3]⟩))
  · exact Or.inr (Or.inr (Or.inr ⟨h1, h2, h3, by simp [getRecommendationColor, h1, h2, h3]⟩))

/-- C10: for every stored string on which the parse step fails (models
`JSON.parse` throwing on invalid JSON), the load effect's catch branch
yields exactly the explicit invalid-format error state with the processed
flag set and loading finished; no exception escapes the effect. -/
theorem c10_malformed_handoff_yields_error {R : Type} (parse : String → Option R)
    (raw : String) (h : parse raw = none) :
    mountResultPage parse (some raw) =
      { storage := some raw, result := none,
        error := some "Invalid result data format. Please start a new analysis.",
        loading := false, hasProcessed := true } := by
  simp [mountResultPage, runPageEffects, initialState, loadResultEffect, clearStorageEffect, h]

/-- Check of C10 at a concrete malformed stored string. -/
theorem c10_malformed_handoff_yields_error_check :
    parseAlwaysFails "not json" = none ∧
    mountResultPage parseAlwaysFails (some "not json") =
      { storage := some "not json", result := none,
        error := some "Invalid result data format. Please start a new analysis.",
        loading := false, hasProcessed := true } :=
  ⟨rfl, c10_malformed_handoff_yields_error parseAlwaysFails "not json" rfl⟩
